import Mathlib

/-!
Verification of the device-discovery engine of usb-link-speed-tray
(src/usb_link_speed_tray/main.py) against its specification.

The engine reads pseudo-filesystem state (/sys/block, /sys/bus/usb/devices,
/proc/self/mountinfo).  We model that state as an explicit structure FS and
translate each engine function into a pure Lean function over FS.  Python
string operations used by the code (str.split(), str.splitlines(),
str.replace, str.strip(), int(), sorted()) are modelled by structurally
recursive functions over the character list of the string, with Python
semantics (code-point comparisons, whitespace runs, octal-space escapes).
-/

/-- Result of attempting to read a pseudo-file: the path does not exist,
it exists but reading raises OSError, or it has textual content. -/
inductive FileRead where
  | missing
  | unreadable
  | content (s : String)
deriving DecidableEq, Repr

/-- One directory entry under a block-device directory, as seen by
Path.iterdir(): its name, whether it is a directory, and the read outcome
of its dev file. -/
structure DirEntry where
  name : String
  isDir : Bool
  dev : FileRead
deriving DecidableEq, Repr

/-- The pseudo-filesystem state the engine reads.  Direct path accesses are
keyed by device name; directory listings are explicit lists in iteration
order.  resolveDevName models Path(p).resolve().name for a device path
(none when resolve raises OSError or ValueError); deviceLink models
existence and full resolution of SYS_BLOCK/name/device (outer none: the
path does not exist; some none: resolve raises; some (some parts): the
parts of the resolved target). -/
structure FS where
  sysBlockExists : Bool
  sysBlockList : List String
  blockIsDir : String → Bool
  deviceLink : String → Option (Option (List String))
  devFile : String → FileRead
  blockSub : String → List DirEntry
  slavesDir : String → Option (List String)
  usbSpeed : String → FileRead
  resolveDevName : String → Option String
  mountinfo : FileRead

/-- Accumulate decimal digits; none as soon as a non-digit appears.
Together with pyIntOfString this models Python int() on a stripped string
(optional sign followed by decimal digits; anything else raises ValueError). -/
def digitsToNatAux : Nat → List Char → Option Nat
  | acc, [] => some acc
  | acc, c :: cs =>
    if c.isDigit then digitsToNatAux (acc * 10 + (c.toNat - 48)) cs else none

/-- Parse a nonempty all-digit character list as a Nat. -/
def digitsToNat : List Char → Option Nat
  | [] => none
  | cs => digitsToNatAux 0 cs

/-- Model of Python int(s) for a whitespace-stripped string s: an optional
sign followed by one or more decimal digits (the Python underscore-separator
extension is not modelled; no engine input uses it). -/
def pyIntOfString (s : String) : Option Int :=
  match s.toList with
  | '-' :: cs => (digitsToNat cs).map (fun n => -(n : Int))
  | '+' :: cs => (digitsToNat cs).map Int.ofNat
  | cs => (digitsToNat cs).map Int.ofNat

/-- Model of Python str.strip(): drop whitespace from both ends. -/
def pyStrip (s : String) : String :=
  String.mk (((s.toList.dropWhile Char.isWhitespace).reverse.dropWhile Char.isWhitespace).reverse)

/-- Split a character list on runs of whitespace, dropping empty pieces;
the accumulator holds the current token reversed. -/
def pySplitAux : List Char → List Char → List String
  | [], acc => if acc = [] then [] else [String.mk acc.reverse]
  | c :: cs, acc =>
    if c.isWhitespace then
      if acc = [] then pySplitAux cs []
      else String.mk acc.reverse :: pySplitAux cs []
    else pySplitAux cs (c :: acc)

/-- Model of Python str.split() with no argument: split on whitespace runs,
no empty tokens. -/
def pySplit (s : String) : List String := pySplitAux s.toList []

/-- Split a character list at line boundaries as Python str.splitlines()
does for the newline characters that can occur in mountinfo text:
a trailing newline produces no extra empty line. -/
def pySplitlinesAux : List Char → List Char → List String
  | [], acc => if acc = [] then [] else [String.mk acc.reverse]
  | '\r' :: '\n' :: cs, acc => String.mk acc.reverse :: pySplitlinesAux cs []
  | '\r' :: cs, acc => String.mk acc.reverse :: pySplitlinesAux cs []
  | '\n' :: cs, acc => String.mk acc.reverse :: pySplitlinesAux cs []
  | c :: cs, acc => pySplitlinesAux cs (c :: acc)

/-- Model of Python str.splitlines() on mountinfo text. -/
def pySplitlines (s : String) : List String := pySplitlinesAux s.toList []

/-- Replace every occurrence of the four-character sequence backslash-0-4-0
by a space, scanning left to right: the model of
s.replace with arguments the escape sequence and a space. -/
def decodeOctalSpaces : List Char → List Char
  | '\\' :: '0' :: '4' :: '0' :: cs => ' ' :: decodeOctalSpaces cs
  | c :: cs => c :: decodeOctalSpaces cs
  | [] => []

/-- String wrapper for decodeOctalSpaces. -/
def pyReplace040 (s : String) : String := String.mk (decodeOctalSpaces s.toList)

/-- Model of Python str.startswith: p is an initial segment of s. -/
def startsWithStr (s p : String) : Bool := p.toList.isPrefixOf s.toList

/-- Lexicographic less-or-equal on character lists by code point:
the order Python uses to compare strings. -/
def lexLe : List Char → List Char → Bool
  | [], _ => true
  | _ :: _, [] => false
  | a :: as, b :: bs =>
    if a.toNat < b.toNat then true
    else if b.toNat < a.toNat then false
    else lexLe as bs

/-- Python string less-or-equal, as a proposition. -/
def strLeP (a b : String) : Prop := lexLe a.toList b.toList = true

instance : DecidableRel strLeP := fun a b =>
  inferInstanceAs (Decidable (lexLe a.toList b.toList = true))

/-- Model of Python sorted() on a list of strings: the unique ascending
reordering (insertion sort; stability is irrelevant because the order is
antisymmetric on strings). -/
def sortStrings (l : List String) : List String := List.insertionSort strLeP l

/-- The partition-naming condition shared by the partition scanner, the
device-path matcher and the dm slave check in main.py: the candidate
starts with the device name, is strictly longer, and its character right
after the device name is a digit. -/
def partSuffixMatch (n p : List Char) : Bool :=
  p.isPrefixOf n && decide (p.length < n.length) &&
    (match n.drop p.length with
     | c :: _ => c.isDigit
     | [] => false)

/-- String wrapper for partSuffixMatch: name is a numbered-partition-style
child of pfx. -/
def partMatches (name pfx : String) : Bool := partSuffixMatch name.toList pfx.toList

/-- Segment test of the topology resolver: the segment matches the regular
expression anchored usb followed by one or more digits. -/
def isUsbSeg (s : String) : Bool :=
  startsWithStr s "usb" && decide (3 < s.toList.length) && (s.toList.drop 3).all Char.isDigit

/-- Embedding of _block_device_usb_path: resolve SYS_BLOCK/name/device and
return the segment right after the first segment matching usb plus digits,
none when the path is missing, resolve raises, no segment matches, or the
matching segment is last.  (The source loop takes list.index of the first
matching part, which is the index of the first matching position.) -/
def _block_device_usb_path (fs : FS) (block_name : String) : Option String :=
  match fs.deviceLink block_name with
  | none => none
  | some none => none
  | some (some parts) =>
    match parts.findIdx? isUsbSeg with
    | none => none
    | some idx => parts[idx + 1]?

/-- Embedding of _read_speed_mbps: read the speed file under the USB bus
path and parse it as an integer; missing file, read failure or non-numeric
content give none. -/
def _read_speed_mbps (fs : FS) (usb_path : String) : Option Int :=
  match fs.usbSpeed usb_path with
  | FileRead.missing => none
  | FileRead.unreadable => none
  | FileRead.content s => pyIntOfString (pyStrip s)

/-- The contribution of one dev file to the device-number set: its stripped
content when readable, nothing otherwise (modelling the exists check plus
the try/except OSError around read_text). -/
def devContent : FileRead → Finset String
  | FileRead.content s => {pyStrip s}
  | _ => ∅

/-- The partition loop of _get_block_dev_numbers: every directory entry
whose name is a numbered-partition-style child of the device contributes
its dev file content. -/
def partDevs (block_name : String) : List DirEntry → Finset String
  | [] => ∅
  | e :: es =>
    (if e.isDir && partMatches e.name block_name then devContent e.dev else ∅) ∪
      partDevs block_name es

/-- Embedding of _get_block_dev_numbers: the device-number identifiers of
the device and of its numbered partitions, empty when the block directory
is not a directory. -/
def _get_block_dev_numbers (fs : FS) (block_name : String) : Finset String :=
  if fs.blockIsDir block_name then
    devContent (fs.devFile block_name) ∪ partDevs block_name (fs.blockSub block_name)
  else ∅

/-- Embedding of _device_path_matches_block: resolve the device path and
compare its final name with the block name or a numbered partition of it;
a failed resolve gives false. -/
def _device_path_matches_block (fs : FS) (device_path block_name : String) : Bool :=
  match fs.resolveDevName device_path with
  | none => false
  | some name => name == block_name || partMatches name block_name

/-- Embedding of _dm_device_backed_by_block: the device path must start
with /dev/, resolve to a name starting with dm-, and that dm device's
slaves directory must list the block name or a numbered partition of it. -/
def _dm_device_backed_by_block (fs : FS) (device_path block_name : String) : Bool :=
  if startsWithStr device_path "/dev/" then
    match fs.resolveDevName device_path with
    | none => false
    | some name =>
      if startsWithStr name "dm-" then
        match fs.slavesDir name with
        | none => false
        | some slaves =>
          slaves.any (fun s => s == block_name || partMatches s block_name)
      else false
  else false

/-- Embedding of _parse_mountinfo_line: whitespace-split the line; fewer
than ten fields is unparseable; otherwise take field 2 as major:minor,
field 4 (octal-space decoded) as mount point, and the second token after
the first literal hyphen token as device path, empty when the hyphen is
absent or has no second following token. -/
def _parse_mountinfo_line (line : String) : Option (String × String × String) :=
  let parts := pySplit line
  if parts.length < 10 then none
  else
    some (parts.getD 2 "",
      pyReplace040 (parts.getD 4 ""),
      match parts.findIdx? (fun t => t == "-") with
      | some i => parts.getD (i + 2) ""
      | none => "")

/-- Criterion a of the mount correlator: the entry's major:minor is in the
collected device-number set. -/
def criterionDevNum (fs : FS) (block_name mm : String) : Bool :=
  decide (mm ∈ _get_block_dev_numbers fs block_name)

/-- Criterion b of the mount correlator: the backing path starts with /dev/
and its resolved name is the block or one of its numbered partitions. -/
def criterionPath (fs : FS) (block_name dp : String) : Bool :=
  startsWithStr dp "/dev/" && _device_path_matches_block fs dp block_name

/-- Criterion c of the mount correlator: the backing path starts with /dev/
and is a dm device backed by the block. -/
def criterionDm (fs : FS) (block_name dp : String) : Bool :=
  startsWithStr dp "/dev/" && _dm_device_backed_by_block fs dp block_name

/-- The matched expression of get_mount_points: the OR of the three
criteria, applied to a parsed (major:minor, mount point, device path)
entry.  The source computes the device-number set once before the loop;
the functions are pure, so recomputing it per entry is the same value. -/
def entryMatches (fs : FS) (block_name : String) (e : String × String × String) : Bool :=
  criterionDevNum fs block_name e.1 ||
    criterionPath fs block_name e.2.2 ||
    criterionDm fs block_name e.2.2

/-- The line loop of get_mount_points: parse each line, skip unparseable
ones, and append the mount point of each matching entry in order. -/
def mountLoop (fs : FS) (block_name : String) : List String → List String
  | [] => []
  | line :: rest =>
    match _parse_mountinfo_line line with
    | none => mountLoop fs block_name rest
    | some e =>
      (if entryMatches fs block_name e then [e.2.1] else []) ++
        mountLoop fs block_name rest

/-- Embedding of get_mount_points: an absent or unreadable mountinfo gives
the empty list; otherwise the mount points of the matching entries of its
lines, in line order. -/
def get_mount_points (fs : FS) (block_name : String) : List String :=
  match fs.mountinfo with
  | FileRead.content text => mountLoop fs block_name (pySplitlines text)
  | _ => []

/-- The entry loop of get_usb_storage_speeds: keep each directory entry
that resolves to a USB bus path, paired with its (possibly absent) speed. -/
def enumLoop (fs : FS) : List String → List (String × Option Int)
  | [] => []
  | n :: ns =>
    (if fs.blockIsDir n then
      match _block_device_usb_path fs n with
      | some p => [(n, _read_speed_mbps fs p)]
      | none => []
    else []) ++ enumLoop fs ns

/-- Embedding of get_usb_storage_speeds: an absent block registry gives the
empty list; otherwise the enumeration loop over its entries in order. -/
def get_usb_storage_speeds (fs : FS) : List (String × Option Int) :=
  if fs.sysBlockExists then enumLoop fs fs.sysBlockList else []

/-- Round num/den to the nearest integer, ties to even: the rounding IEEE
binary64 arithmetic and Python fixed-point formatting both use. -/
def roundHalfEven (num den : Nat) : Nat :=
  let q := num / den
  let r := num % den
  if 2 * r < den then q
  else if den < 2 * r then q + 1
  else if q % 2 = 0 then q else q + 1

/-- The exact value, in tenths, that Python prints for mbps / 1000 with
one-decimal fixed-point formatting, for 1000 <= mbps <= 9999: first round
mbps / 1000 to the nearest binary64 (52 fractional significand bits in
binade 2^e..2^(e+1)), then round that double times ten to the nearest
integer, ties to even in both steps. -/
def floatTenths (mbps : Nat) : Nat :=
  let e := if mbps < 2000 then 0 else if mbps < 4000 then 1 else if mbps < 8000 then 2 else 3
  let n := roundHalfEven (mbps * 2 ^ (52 - e)) 1000
  roundHalfEven (n * 10) (2 ^ (52 - e))

/-- Render a tenths count as the one-decimal Gbps string. -/
def fmtTenths (d : Nat) : String :=
  toString (d / 10) ++ "." ++ toString (d % 10) ++ " Gbps"

/-- Embedding of format_speed.  Python floor division for the at-least
10000 branch is Int.fdiv; the 1000..9999 branch is the binary64 one-decimal
formatting modelled by floatTenths. -/
def format_speed : Option Int → String
  | none => "?"
  | some mbps =>
    if 10000 ≤ mbps then toString (Int.fdiv mbps 1000) ++ " Gbps"
    else if 1000 ≤ mbps then fmtTenths (floatTenths mbps.toNat)
    else toString mbps ++ " Mbps"

/-- Embedding of _menu_state: pair each enumerated device with its sorted
mount points, in device order. -/
def _menu_state (fs : FS) (devices : List (String × Option Int)) :
    List (String × Option Int × List String) :=
  devices.map (fun d => (d.1, d.2, sortStrings (get_mount_points fs d.1)))

/-- Written from the specification's words for claim C3, not from the
source: the candidate has the device name as a true prefix and the entire
remainder is numeric. -/
def partFamilySpec (name pfx : String) : Bool :=
  pfx.toList.isPrefixOf name.toList && decide (pfx.toList.length < name.toList.length) &&
    (name.toList.drop pfx.toList.length).all Char.isDigit

/-- A mountinfo line whose entry matches sda by device number (8:1) and
also by backing path. -/
def mainLine1 : String := "20 25 8:1 / /mnt/data rw,relatime shared:1 - ext4 /dev/sda1 rw"

/-- A mountinfo line for a device-mapper volume over sda1. -/
def mainLine2 : String := "21 25 253:0 / /mnt/vault rw - ext4 /dev/mapper/vc rw"

/-- A synthetic-filesystem mountinfo line whose backing source is not a
/dev/ path. -/
def mainLine3 : String := "22 25 0:45 / /proc rw shared:2 - proc proc rw"

/-- An unparseable mountinfo line (fewer than ten fields). -/
def mainLine4 : String := "short line"

/-- The mount table of the main witness state. -/
def mainText : String :=
  mainLine1 ++ "\n" ++ mainLine2 ++ "\n" ++ mainLine3 ++ "\n" ++ mainLine4 ++ "\n"

/-- A concrete filesystem state: USB disk sda (bus path 2-3, 5000 Mbps)
with partitions sda1 and sda2, a dm volume dm-0 over sda1 mounted at
/mnt/vault while sda1 itself has no direct mount line, a devnum-matched
mount at /mnt/data, a synthetic mount, and a malformed line. -/
def fsMain : FS where
  sysBlockExists := true
  sysBlockList := ["sda", "dm-0", "loop0"]
  blockIsDir := fun n => n == "sda" || n == "dm-0" || n == "loop0"
  deviceLink := fun n =>
    if n == "sda" then
      some (some ["/", "sys", "devices", "pci0000:00", "0000:00:14.0", "usb2", "2-3",
        "2-3:1.0", "host0", "target0:0:0", "0:0:0:0", "block", "sda"])
    else none
  devFile := fun n => if n == "sda" then FileRead.content "8:0\n" else FileRead.missing
  blockSub := fun n =>
    if n == "sda" then
      [⟨"sda1", true, FileRead.content "8:1\n"⟩,
       ⟨"trace", true, FileRead.missing⟩,
       ⟨"sda2", true, FileRead.content "8:2\n"⟩]
    else []
  slavesDir := fun n => if n == "dm-0" then some ["sda1"] else none
  usbSpeed := fun p => if p == "2-3" then FileRead.content "5000\n" else FileRead.missing
  resolveDevName := fun p =>
    if p == "/dev/sda1" then some "sda1"
    else if p == "/dev/mapper/vc" then some "dm-0"
    else if p == "/dev/sdb1" then some "sdb1"
    else none
  mountinfo := FileRead.content mainText

/-- A mountinfo line whose backing source field is the relative path dm-0:
it resolves to the dm device name without starting with /dev/. -/
def cexLine : String := "36 35 253:0 / /mnt/vault rw - ext4 dm-0 rw"

/-- A concrete state for the C2 counterexample: dm-0 has slave sda1 and the
mount entry's backing path resolves to dm-0, but the path does not start
with /dev/, and the entry's device number is not among sda's. -/
def fsC2cex : FS where
  sysBlockExists := true
  sysBlockList := ["sda", "dm-0"]
  blockIsDir := fun n => n == "sda" || n == "dm-0"
  deviceLink := fun _ => none
  devFile := fun n => if n == "sda" then FileRead.content "8:0\n" else FileRead.missing
  blockSub := fun n =>
    if n == "sda" then [⟨"sda1", true, FileRead.content "8:1\n"⟩] else []
  slavesDir := fun n => if n == "dm-0" then some ["sda1"] else none
  usbSpeed := fun _ => FileRead.missing
  resolveDevName := fun p => if p == "dm-0" then some "dm-0" else none
  mountinfo := FileRead.content cexLine

/-- A state where every pseudo-filesystem input is absent. -/
def fsEmpty : FS where
  sysBlockExists := false
  sysBlockList := []
  blockIsDir := fun _ => false
  deviceLink := fun _ => none
  devFile := fun _ => FileRead.missing
  blockSub := fun _ => []
  slavesDir := fun _ => none
  usbSpeed := fun _ => FileRead.missing
  resolveDevName := fun _ => none
  mountinfo := FileRead.missing

/-- A state whose mount table consists of a single unparseable line. -/
def fsBadLine : FS where
  sysBlockExists := false
  sysBlockList := []
  blockIsDir := fun _ => false
  deviceLink := fun _ => none
  devFile := fun _ => FileRead.missing
  blockSub := fun _ => []
  slavesDir := fun _ => none
  usbSpeed := fun _ => FileRead.missing
  resolveDevName := fun _ => none
  mountinfo := FileRead.content mainLine4

/-- A state where the mount table and the speed files exist but raise on
read. -/
def fsUnread : FS where
  sysBlockExists := true
  sysBlockList := []
  blockIsDir := fun _ => false
  deviceLink := fun _ => none
  devFile := fun _ => FileRead.unreadable
  blockSub := fun _ => []
  slavesDir := fun _ => none
  usbSpeed := fun _ => FileRead.unreadable
  resolveDevName := fun _ => none
  mountinfo := FileRead.unreadable

/-- Listing outcomes for the two directory iterations the source leaves
unguarded: SYS_BLOCK.iterdir() in get_usb_storage_speeds (main.py line
216, no try around it) and block_dir.iterdir() in _get_block_dev_numbers
(line 117, reached from get_mount_points at line 184 before the try at
line 190).  A true flag means the listing call raises OSError although
the directory exists.  The slaves listing (line 157) sits inside the try
of get_mount_points and is caught there, so it stays total in the model. -/
structure FSX where
  base : FS
  sysBlockRaises : Bool
  blockSubRaises : String → Bool

/-- Embedding of _get_block_dev_numbers with its unguarded iterdir made
explicit: a non-directory path returns the empty set, a failing listing of
an existing directory propagates the error to the caller (discarding the
partial result collected from the device's own dev file), and otherwise
the result is the pure collection. -/
def _get_block_dev_numbersX (fx : FSX) (block_name : String) : Except Unit (Finset String) :=
  if fx.base.blockIsDir block_name then
    if fx.blockSubRaises block_name then Except.error ()
    else Except.ok (devContent (fx.base.devFile block_name) ∪
      partDevs block_name (fx.base.blockSub block_name))
  else Except.ok ∅

/-- Embedding of get_mount_points with its raise path made explicit: the
device-number collection runs before the try block, so a listing error
propagates to the caller; once it succeeds, the guarded table scan never
raises, and by purity it recomputes the same device-number set the
collection returned. -/
def get_mount_pointsX (fx : FSX) (block_name : String) : Except Unit (List String) :=
  match _get_block_dev_numbersX fx block_name with
  | Except.error e => Except.error e
  | Except.ok _ =>
    Except.ok (match fx.base.mountinfo with
      | FileRead.content text => mountLoop fx.base block_name (pySplitlines text)
      | _ => [])

/-- Embedding of get_usb_storage_speeds with its raise path made explicit:
a missing registry returns the empty list, a failing listing of an
existing registry propagates the error, and otherwise the loop runs (its
per-entry reads catch their own failures and cannot raise). -/
def get_usb_storage_speedsX (fx : FSX) : Except Unit (List (String × Option Int)) :=
  if fx.base.sysBlockExists then
    if fx.sysBlockRaises then Except.error ()
    else Except.ok (enumLoop fx.base fx.base.sysBlockList)
  else Except.ok []

/-- The main witness state with no listing failures. -/
def fxMain : FSX where
  base := fsMain
  sysBlockRaises := false
  blockSubRaises := fun _ => false

/-- The all-absent state with no listing failures. -/
def fxEmpty : FSX where
  base := fsEmpty
  sysBlockRaises := false
  blockSubRaises := fun _ => false

/-- The unreadable-files state with no listing failures. -/
def fxUnread : FSX where
  base := fsUnread
  sysBlockRaises := false
  blockSubRaises := fun _ => false

/-- A state whose block registry and sda directory exist but whose
listings fail (for example an unreadable directory, or one removed
between the existence check and the iteration). -/
def fxRaise : FSX where
  base := {
    sysBlockExists := true
    sysBlockList := []
    blockIsDir := fun n => n == "sda"
    deviceLink := fun _ => none
    devFile := fun n => if n == "sda" then FileRead.content "8:0\n" else FileRead.missing
    blockSub := fun _ => []
    slavesDir := fun _ => none
    usbSpeed := fun _ => FileRead.missing
    resolveDevName := fun _ => none
    mountinfo := FileRead.content mainLine1 }
  sysBlockRaises := true
  blockSubRaises := fun n => n == "sda"

/-- A Boolean prefix test succeeds exactly when the longer list is the
shorter one followed by some tail. -/
theorem isPrefixOf_iff_append : ∀ (p n : List Char), p.isPrefixOf n = true ↔ ∃ t, n = p ++ t := by
  intro p
  induction p with
  | nil => intro n; simp [List.isPrefixOf]
  | cons a p ih =>
    intro n
    cases n with
    | nil => simp [List.isPrefixOf]
    | cons b n =>
      simp only [List.isPrefixOf, Bool.and_eq_true, beq_iff_eq, ih, List.cons_append,
        List.cons.injEq]
      constructor
      · rintro ⟨h1, t, h2⟩
        exact ⟨t, h1.symm, h2⟩
      · rintro ⟨t, h1, h2⟩
        exact ⟨h1.symm, t, h2⟩

/-- The partition-naming condition holds exactly when the candidate is the
device name followed by a digit and then anything. -/
theorem partMatches_iff (name pfx : String) :
    partMatches name pfx = true ↔
      ∃ c rest, name.toList = pfx.toList ++ c :: rest ∧ c.isDigit = true := by
  unfold partMatches partSuffixMatch
  simp only [Bool.and_eq_true, decide_eq_true_eq, isPrefixOf_iff_append]
  constructor
  · rintro ⟨⟨⟨t, ht⟩, hlen⟩, hd⟩
    cases t with
    | nil =>
      rw [ht, List.append_nil] at hlen
      exact absurd hlen (Nat.lt_irrefl _)
    | cons c rest =>
      refine ⟨c, rest, ht, ?_⟩
      rw [ht, List.drop_left] at hd
      exact hd
  · rintro ⟨c, rest, h, hd⟩
    refine ⟨⟨⟨c :: rest, h⟩, ?_⟩, ?_⟩
    · rw [h, List.length_append, List.length_cons]
      omega
    · rw [h, List.drop_left]
      exact hd

/-- The mount-correlator loop is a filter of the parsed entries by the
match predicate, projected to mount points, in line order. -/
theorem mountLoop_eq (fs : FS) (b : String) (lines : List String) :
    mountLoop fs b lines =
      ((lines.filterMap _parse_mountinfo_line).filter (entryMatches fs b)).map
        (fun e => e.2.1) := by
  induction lines with
  | nil => rfl
  | cons l rest ih =>
    cases h : _parse_mountinfo_line l with
    | none => simp [mountLoop, h, ih]
    | some e =>
      by_cases hm : entryMatches fs b e = true
      · simp [mountLoop, h, ih, List.filter_cons, hm]
      · simp [mountLoop, h, ih, List.filter_cons, hm]


/-- Membership in the head chunk produced by one enumerator-loop step. -/
theorem mem_enumHead (fs : FS) (m n : String) (sp : Option Int) :
    ((n, sp) ∈ (if fs.blockIsDir m then
        match _block_device_usb_path fs m with
        | some p => [(m, _read_speed_mbps fs p)]
        | none => []
      else ([] : List (String × Option Int)))) ↔
      (n = m ∧ fs.blockIsDir m = true ∧
        ∃ p, _block_device_usb_path fs m = some p ∧ sp = _read_speed_mbps fs p) := by
  by_cases hd : fs.blockIsDir m
  · cases hp : _block_device_usb_path fs m with
    | none => simp [hd, hp]
    | some p =>
      rw [if_pos hd]
      simp only [hp, List.mem_singleton, Prod.mk.injEq, hd, true_and, Option.some.injEq]
      constructor
      · rintro ⟨h1, h2⟩
        exact ⟨h1, p, rfl, h2⟩
      · rintro ⟨h1, q, hq, h2⟩
        exact ⟨h1, by rw [hq]; exact h2⟩
  · simp [hd]

/-- Membership in the enumerator loop output: the name was listed, is a
directory, resolves to a USB bus path, and is paired with the outcome of
the speed read for that path. -/
theorem mem_enumLoop (fs : FS) (n : String) (sp : Option Int) :
    ∀ l : List String, (n, sp) ∈ enumLoop fs l ↔
      n ∈ l ∧ fs.blockIsDir n = true ∧
        ∃ p, _block_device_usb_path fs n = some p ∧ sp = _read_speed_mbps fs p := by
  intro l
  induction l with
  | nil => simp [enumLoop]
  | cons m ms ih =>
    rw [show enumLoop fs (m :: ms) = _ ++ enumLoop fs ms from rfl, List.mem_append,
      mem_enumHead, ih, List.mem_cons]
    constructor
    · rintro (⟨h1, h2⟩ | ⟨h1, h2⟩)
      · subst h1
        exact ⟨Or.inl rfl, h2⟩
      · exact ⟨Or.inr h1, h2⟩
    · rintro ⟨h1 | h1, h2⟩
      · subst h1
        exact Or.inl ⟨rfl, h2⟩
      · exact Or.inr ⟨h1, h2⟩

/-- Membership in the reading of a single dev file. -/
theorem mem_devContent (x : String) (fr : FileRead) :
    x ∈ devContent fr ↔ ∃ s, fr = FileRead.content s ∧ pyStrip s = x := by
  cases fr <;> simp [devContent, eq_comm]

/-- Membership in the contribution of one partition-scan step. -/
theorem mem_partDevsHead (b x : String) (e : DirEntry) :
    (x ∈ (if e.isDir && partMatches e.name b then devContent e.dev else ∅)) ↔
      (e.isDir = true ∧ partMatches e.name b = true ∧
        ∃ s, e.dev = FileRead.content s ∧ pyStrip s = x) := by
  by_cases h : (e.isDir && partMatches e.name b) = true
  · rw [if_pos h]
    rw [Bool.and_eq_true] at h
    simp [mem_devContent, h.1, h.2]
  · rw [if_neg h]
    rw [Bool.and_eq_true] at h
    simp only [Finset.not_mem_empty, false_iff]
    rintro ⟨h1, h2, _⟩
    exact h ⟨h1, h2⟩

/-- Membership in the partition-scan accumulation. -/
theorem mem_partDevs (b x : String) : ∀ es : List DirEntry,
    x ∈ partDevs b es ↔ ∃ e ∈ es, e.isDir = true ∧ partMatches e.name b = true ∧
      ∃ s, e.dev = FileRead.content s ∧ pyStrip s = x := by
  intro es
  induction es with
  | nil => simp [partDevs]
  | cons e es ih =>
    rw [show partDevs b (e :: es) = _ ∪ partDevs b es from rfl, Finset.mem_union,
      mem_partDevsHead, ih]
    constructor
    · rintro (⟨h1, h2, h3⟩ | ⟨f, hf1, hf2⟩)
      · exact ⟨e, List.mem_cons_self e es, h1, h2, h3⟩
      · exact ⟨f, List.mem_cons_of_mem e hf1, hf2⟩
    · rintro ⟨f, hf1, hf2⟩
      rcases List.mem_cons.mp hf1 with hf | hf
      · subst hf
        exact Or.inl hf2
      · exact Or.inr ⟨f, hf, hf2⟩

/-- Two characters with the same code point are the same character. -/
theorem char_eq_of_toNat_eq {a b : Char} (h : a.toNat = b.toNat) : a = b := by
  have h1 := Char.ofNat_toNat a
  have h2 := Char.ofNat_toNat b
  rw [← h1, ← h2, h]

/-- The code-point order on character lists is total. -/
theorem lexLe_total : ∀ a b : List Char, lexLe a b = true ∨ lexLe b a = true
  | [], _ => Or.inl rfl
  | _ :: _, [] => Or.inr rfl
  | a :: as, b :: bs => by
    rcases Nat.lt_trichotomy a.toNat b.toNat with h | h | h
    · left
      simp [lexLe, h]
    · have h1 : ¬ a.toNat < b.toNat := by omega
      have h2 : ¬ b.toNat < a.toNat := by omega
      rcases lexLe_total as bs with hr | hr
      · left
        rw [lexLe, if_neg h1, if_neg h2]
        exact hr
      · right
        rw [lexLe, if_neg h2, if_neg h1]
        exact hr
    · right
      simp [lexLe, h]

/-- The code-point order on character lists is transitive. -/
theorem lexLe_trans : ∀ a b c : List Char,
    lexLe a b = true → lexLe b c = true → lexLe a c = true
  | [], _, _, _, _ => rfl
  | _ :: _, [], _, h, _ => by simp [lexLe] at h
  | _ :: _, _ :: _, [], _, h => by simp [lexLe] at h
  | a :: as, b :: bs, c :: cs, h1, h2 => by
    by_cases hab : a.toNat < b.toNat
    · by_cases hbc : b.toNat < c.toNat
      · have : a.toNat < c.toNat := Nat.lt_trans hab hbc
        simp [lexLe, this]
      · by_cases hcb : c.toNat < b.toNat
        · rw [lexLe, if_neg hbc, if_pos hcb] at h2
          exact absurd h2 (by simp)
        · have : a.toNat < c.toNat := by omega
          simp [lexLe, this]
    · by_cases hba : b.toNat < a.toNat
      · rw [lexLe, if_neg hab, if_pos hba] at h1
        exact absurd h1 (by simp)
      · by_cases hbc : b.toNat < c.toNat
        · have : a.toNat < c.toNat := by omega
          simp [lexLe, this]
        · by_cases hcb : c.toNat < b.toNat
          · rw [lexLe, if_neg hbc, if_pos hcb] at h2
            exact absurd h2 (by simp)
          · have e1 : ¬ a.toNat < c.toNat := by omega
            have e2 : ¬ c.toNat < a.toNat := by omega
            rw [lexLe, if_neg hab, if_neg hba] at h1
            rw [lexLe, if_neg hbc, if_neg hcb] at h2
            rw [lexLe, if_neg e1, if_neg e2]
            exact lexLe_trans as bs cs h1 h2

/-- The code-point order on character lists is antisymmetric. -/
theorem lexLe_antisymm : ∀ a b : List Char,
    lexLe a b = true → lexLe b a = true → a = b
  | [], [], _, _ => rfl
  | [], _ :: _, _, h => by simp [lexLe] at h
  | _ :: _, [], h, _ => by simp [lexLe] at h
  | a :: as, b :: bs, h1, h2 => by
    by_cases hab : a.toNat < b.toNat
    · rw [lexLe, if_neg (Nat.lt_asymm hab), if_pos hab] at h2
      exact absurd h2 (by simp)
    · by_cases hba : b.toNat < a.toNat
      · rw [lexLe, if_neg hab, if_pos hba] at h1
        exact absurd h1 (by simp)
      · rw [lexLe, if_neg hab, if_neg hba] at h1
        rw [lexLe, if_neg hba, if_neg hab] at h2
        have hc : a = b := char_eq_of_toNat_eq (by omega)
        rw [hc, lexLe_antisymm as bs h1 h2]

instance : IsTotal String strLeP :=
  ⟨fun a b => lexLe_total a.toList b.toList⟩

instance : IsTrans String strLeP :=
  ⟨fun a b c h1 h2 => lexLe_trans a.toList b.toList c.toList h1 h2⟩

instance : IsAntisymm String strLeP :=
  ⟨fun a b h1 h2 => by
    have h := lexLe_antisymm a.toList b.toList h1 h2
    cases a
    cases b
    exact congrArg String.mk h⟩

/-- Sorting is invariant under permutation of the input: the model of the
fact that Python sorted() depends only on the multiset of elements. -/
theorem sortStrings_eq_of_perm {l₁ l₂ : List String} (h : l₁.Perm l₂) :
    sortStrings l₁ = sortStrings l₂ :=
  List.eq_of_perm_of_sorted
    (((List.perm_insertionSort strLeP l₁).trans h).trans
      (List.perm_insertionSort strLeP l₂).symm)
    (List.sorted_insertionSort strLeP l₁)
    (List.sorted_insertionSort strLeP l₂)

/-- C8: format_speed returns the plain Mbps form below 1000, a one-decimal
Gbps form between 1000 and 9999, the integer-division Gbps form at 10000
and above, and a question mark for an absent speed; in particular
500, 1500, 5000 and 20000 Mbps render as listed in the specification. -/
theorem format_speed_spec (m : Int) :
    format_speed none = "?" ∧
    (m < 1000 → format_speed (some m) = toString m ++ " Mbps") ∧
    (1000 ≤ m → m < 10000 →
      ∃ a b : Nat, b < 10 ∧
        format_speed (some m) = toString a ++ "." ++ toString b ++ " Gbps") ∧
    (10000 ≤ m → format_speed (some m) = toString (Int.fdiv m 1000) ++ " Gbps") ∧
    format_speed (some 500) = "500 Mbps" ∧
    format_speed (some 1500) = "1.5 Gbps" ∧
    format_speed (some 5000) = "5.0 Gbps" ∧
    format_speed (some 20000) = "20 Gbps" := by
  refine ⟨rfl, ?_, ?_, ?_, by decide, by decide, by decide, by decide⟩
  · intro h
    have h1 : ¬ 10000 ≤ m := by omega
    have h2 : ¬ 1000 ≤ m := by omega
    simp only [format_speed, if_neg h1, if_neg h2]
  · intro h1 h2
    have hn : ¬ 10000 ≤ m := by omega
    refine ⟨floatTenths m.toNat / 10, floatTenths m.toNat % 10,
      Nat.mod_lt _ (by norm_num), ?_⟩
    simp only [format_speed, if_neg hn, if_pos h1]
    rfl
  · intro h
    simp only [format_speed, if_pos h]

/-- C8 witness: the speed-formatting theorem applied at concrete inputs
covering each branch. -/
theorem format_speed_spec_witness :
    format_speed (some 500) = "500 Mbps" ∧
    (∃ a b : Nat, b < 10 ∧
      format_speed (some 1500) = toString a ++ "." ++ toString b ++ " Gbps") ∧
    format_speed (some 20000) = toString (Int.fdiv 20000 1000) ++ " Gbps" :=
  ⟨by simpa using (format_speed_spec 500).2.1 (by norm_num),
    (format_speed_spec 1500).2.2.1 (by norm_num) (by norm_num),
    (format_speed_spec 20000).2.2.2.1 (by norm_num)⟩

/-- C3 counterexample: the candidate name sda1x is treated as a member of
the partition family of sda by the code (only the first character after
the device name must be a digit), although the entire remainder 1x is not
numeric as the claim requires. -/
theorem partition_family_numeric_remainder_cex :
    partMatches "sda1x" "sda" = true ∧ partFamilySpec "sda1x" "sda" = false := by
  decide

/-- C3 (amended): a candidate is in a device's partition family iff the
device name is a true prefix of it and the first character of the
remainder is a digit (the rest of the remainder is unconstrained); the
device-path matcher accepts exactly the device itself or such family
members, and in particular /dev/sdb1 does not match device name sd. -/
theorem partition_family_first_digit (fs : FS) (n d p : String)
    (hres : fs.resolveDevName p = some n) :
    (partMatches n d = true ↔
      ∃ c rest, n.toList = d.toList ++ c :: rest ∧ c.isDigit = true) ∧
    (_device_path_matches_block fs p d = true ↔ (n = d ∨ partMatches n d = true)) ∧
    (fs.resolveDevName "/dev/sdb1" = some "sdb1" →
      _device_path_matches_block fs "/dev/sdb1" "sd" = false) := by
  refine ⟨partMatches_iff n d, ?_, ?_⟩
  · unfold _device_path_matches_block
    rw [hres]
    simp
  · intro h2
    unfold _device_path_matches_block
    rw [h2]
    decide

/-- C3 witness: the amended theorem applied at the concrete sd versus
/dev/sdb1 edge case of the specification. -/
theorem partition_family_first_digit_witness :
    fsMain.resolveDevName "/dev/sdb1" = some "sdb1" ∧
    _device_path_matches_block fsMain "/dev/sdb1" "sd" = false :=
  ⟨by decide,
    (partition_family_first_digit fsMain "sdb1" "sd" "/dev/sdb1" (by decide)).2.2 (by decide)⟩

/-- C5: a string is a collected device number for a block device iff the
block directory exists and the string is the stripped content of the
device's own readable dev file or of the readable dev file of some
directory entry named as a numbered partition of the device; missing and
unreadable dev files contribute nothing. -/
theorem dev_numbers_union (fs : FS) (block_name x : String) :
    x ∈ _get_block_dev_numbers fs block_name ↔
      fs.blockIsDir block_name = true ∧
        ((∃ s, fs.devFile block_name = FileRead.content s ∧ pyStrip s = x) ∨
          ∃ e ∈ fs.blockSub block_name, e.isDir = true ∧
            partMatches e.name block_name = true ∧
            ∃ s, e.dev = FileRead.content s ∧ pyStrip s = x) := by
  unfold _get_block_dev_numbers
  by_cases hd : fs.blockIsDir block_name = true
  · rw [if_pos hd]
    simp only [Finset.mem_union, mem_devContent, mem_partDevs, hd, true_and]
  · rw [if_neg hd]
    simp only [Finset.not_mem_empty, false_iff]
    rintro ⟨h, _⟩
    exact hd h

/-- C10: a mount entry whose backing device path does not start with /dev/
is never matched by the path criterion or the device-mapper criterion;
for such an entry the match outcome is exactly device-number membership. -/
theorem non_dev_backing_only_devnum (fs : FS) (block_name mm mp dp : String)
    (h : startsWithStr dp "/dev/" = false) :
    criterionPath fs block_name dp = false ∧
    criterionDm fs block_name dp = false ∧
    entryMatches fs block_name (mm, mp, dp) = criterionDevNum fs block_name mm := by
  refine ⟨?_, ?_, ?_⟩ <;> simp [criterionPath, criterionDm, entryMatches, h]

/-- C10 witness: the theorem on backing paths outside /dev applied to the
synthetic /proc entry of the main witness state (backing field proc). -/
theorem non_dev_backing_only_devnum_witness :
    startsWithStr "proc" "/dev/" = false ∧
    entryMatches fsMain "sda" ("0:45", "/proc", "proc") =
      criterionDevNum fsMain "sda" "0:45" :=
  ⟨by decide,
    (non_dev_backing_only_devnum fsMain "sda" "0:45" "/proc" "proc" (by decide)).2.2⟩

/-- C6: the mountinfo parser rejects lines with fewer than ten
whitespace-separated fields; otherwise it returns field 2 as the
device-number pair, field 4 with every escaped octal-space sequence
decoded to a space as the mount point, and the second token after the
first literal hyphen token as the backing device path (empty when the
hyphen or the token is absent); a rejected line contributes no mount point
to the correlator loop and removing it changes nothing else. -/
theorem parse_mountinfo_spec (line : String) :
    ((pySplit line).length < 10 → _parse_mountinfo_line line = none) ∧
    (10 ≤ (pySplit line).length →
      _parse_mountinfo_line line = some ((pySplit line).getD 2 "",
        pyReplace040 ((pySplit line).getD 4 ""),
        match (pySplit line).findIdx? (fun t => t == "-") with
        | some i => (pySplit line).getD (i + 2) ""
        | none => "")) ∧
    (_parse_mountinfo_line line = none →
      ∀ fs block_name pre post,
        mountLoop fs block_name (pre ++ line :: post) =
          mountLoop fs block_name (pre ++ post)) ∧
    pyReplace040 "/mnt/usb\\040drive" = "/mnt/usb drive" := by
  refine ⟨?_, ?_, ?_, by decide⟩
  · intro h
    simp only [_parse_mountinfo_line]
    rw [if_pos h]
  · intro h
    have hn : ¬ (pySplit line).length < 10 := by omega
    simp only [_parse_mountinfo_line]
    rw [if_neg hn]
  · intro hnone fs block_name pre post
    induction pre with
    | nil => simp [mountLoop, hnone]
    | cons l ls ih =>
      cases h : _parse_mountinfo_line l with
      | none => simp [mountLoop, h, ih]
      | some e => simp [mountLoop, h, ih]

/-- C6 witness: the parser theorem applied to the concrete ten-field
threshold failure of the short line, and its non-contribution to the loop. -/
theorem parse_mountinfo_spec_witness :
    (pySplit "short line").length < 10 ∧
    _parse_mountinfo_line "short line" = none ∧
    mountLoop fsBadLine "sda" ([] ++ "short line" :: []) =
      mountLoop fsBadLine "sda" ([] ++ []) :=
  ⟨by decide, (parse_mountinfo_spec "short line").1 (by decide),
    (parse_mountinfo_spec "short line").2.2.1
      ((parse_mountinfo_spec "short line").1 (by decide)) fsBadLine "sda" [] []⟩

/-- C1: with a readable mount table, the correlator output is exactly the
mount points of the parsed entries that satisfy the disjunction of the
three criteria, kept in the table's line order; the match predicate is the
plain OR of the device-number, path and device-mapper criteria; and an
entry whose device-number pair is in the collected set has its mount point
included whatever its backing-source field holds. -/
theorem mount_points_or_semantics (fs : FS) (block_name text : String)
    (h : fs.mountinfo = FileRead.content text) :
    get_mount_points fs block_name =
      (((pySplitlines text).filterMap _parse_mountinfo_line).filter
        (entryMatches fs block_name)).map (fun e => e.2.1) ∧
    (∀ e, entryMatches fs block_name e =
      (criterionDevNum fs block_name e.1 || criterionPath fs block_name e.2.2 ||
        criterionDm fs block_name e.2.2)) ∧
    (∀ mm mp dp,
      (mm, mp, dp) ∈ (pySplitlines text).filterMap _parse_mountinfo_line →
      mm ∈ _get_block_dev_numbers fs block_name →
      mp ∈ get_mount_points fs block_name) := by
  have hmain : get_mount_points fs block_name =
      (((pySplitlines text).filterMap _parse_mountinfo_line).filter
        (entryMatches fs block_name)).map (fun e => e.2.1) := by
    unfold get_mount_points
    rw [h]
    exact mountLoop_eq fs block_name (pySplitlines text)
  refine ⟨hmain, fun e => rfl, ?_⟩
  intro mm mp dp hmem hdev
  rw [hmain]
  exact List.mem_map.mpr ⟨(mm, mp, dp), List.mem_filter.mpr
    ⟨hmem, by simp [entryMatches, criterionDevNum, hdev]⟩, rfl⟩

/-- C1 witness: the correlator characterization applied to the main
witness state, whose first line matches sda by device number 8:1. -/
theorem mount_points_or_semantics_witness :
    fsMain.mountinfo = FileRead.content mainText ∧
    get_mount_points fsMain "sda" =
      (((pySplitlines mainText).filterMap _parse_mountinfo_line).filter
        (entryMatches fsMain "sda")).map (fun e => e.2.1) :=
  ⟨rfl, (mount_points_or_semantics fsMain "sda" mainText rfl).1⟩

/-- C2 counterexample: a concrete state in which a mount entry's backing
path (the relative token dm-0) resolves to a name beginning with dm- whose
slaves directory contains a numbered partition of sda, yet the entry's
mount point does not appear in sda's results, because the backing path
does not start with /dev/ and its device number is not among sda's. -/
theorem dm_without_dev_guard_cex :
    fsC2cex.resolveDevName "dm-0" = some "dm-0" ∧
    startsWithStr "dm-0" "dm-" = true ∧
    fsC2cex.slavesDir "dm-0" = some ["sda1"] ∧
    partMatches "sda1" "sda" = true ∧
    (pySplitlines cexLine).filterMap _parse_mountinfo_line =
      [("253:0", "/mnt/vault", "dm-0")] ∧
    fsC2cex.mountinfo = FileRead.content cexLine ∧
    get_mount_points fsC2cex "sda" = [] := by
  decide

/-- C2 (amended): a mount-table entry whose backing device path starts
with /dev/ and resolves to a name beginning with dm-, where that dm
device's slaves directory contains the block device or a numbered
partition of it, contributes its mount point to that block device's
results, with no requirement that the partition itself be mounted. -/
theorem dm_slave_mount_included (fs : FS) (block_name text mm mp dp nm : String)
    (slaves : List String)
    (htext : fs.mountinfo = FileRead.content text)
    (hline : (mm, mp, dp) ∈ (pySplitlines text).filterMap _parse_mountinfo_line)
    (hdev : startsWithStr dp "/dev/" = true)
    (hres : fs.resolveDevName dp = some nm)
    (hdm : startsWithStr nm "dm-" = true)
    (hsl : fs.slavesDir nm = some slaves)
    (hmem : ∃ s ∈ slaves, s = block_name ∨ partMatches s block_name = true) :
    mp ∈ get_mount_points fs block_name := by
  have hdmb : _dm_device_backed_by_block fs dp block_name = true := by
    unfold _dm_device_backed_by_block
    rw [if_pos hdev, hres]
    show (if startsWithStr nm "dm-" then
        match fs.slavesDir nm with
        | none => false
        | some sl => sl.any (fun s => s == block_name || partMatches s block_name)
      else false) = true
    rw [if_pos hdm, hsl]
    show slaves.any (fun s => s == block_name || partMatches s block_name) = true
    rcases hmem with ⟨s, hs1, hs2⟩
    refine List.any_eq_true.mpr ⟨s, hs1, ?_⟩
    rcases hs2 with h | h
    · simp [h]
    · simp [h]
  have hmatch : entryMatches fs block_name (mm, mp, dp) = true := by
    simp [entryMatches, criterionDm, hdev, hdmb]
  unfold get_mount_points
  rw [htext]
  show mp ∈ mountLoop fs block_name (pySplitlines text)
  rw [mountLoop_eq]
  exact List.mem_map.mpr ⟨(mm, mp, dp), List.mem_filter.mpr ⟨hline, hmatch⟩, rfl⟩

/-- C2 witness: the amended theorem applied to the main witness state:
the dm volume over sda1 mounted at /mnt/vault appears in sda's results. -/
theorem dm_slave_mount_included_witness :
    ("253:0", "/mnt/vault", "/dev/mapper/vc") ∈
      (pySplitlines mainText).filterMap _parse_mountinfo_line ∧
    "/mnt/vault" ∈ get_mount_points fsMain "sda" :=
  ⟨by decide,
    dm_slave_mount_included fsMain "sda" mainText "253:0" "/mnt/vault"
      "/dev/mapper/vc" "dm-0" ["sda1"] rfl (by decide) (by decide) (by decide)
      (by decide) (by decide) ⟨"sda1", by decide, Or.inr (by decide)⟩⟩


/-- Reduction of the resolver when the device link does not exist. -/
theorem usb_path_link_missing (fs : FS) (b : String) (h : fs.deviceLink b = none) :
    _block_device_usb_path fs b = none := by
  unfold _block_device_usb_path
  rw [h]

/-- Reduction of the resolver when resolving the device link raises. -/
theorem usb_path_link_raises (fs : FS) (b : String) (h : fs.deviceLink b = some none) :
    _block_device_usb_path fs b = none := by
  unfold _block_device_usb_path
  rw [h]

/-- Reduction of the resolver on a resolved parts list. -/
theorem usb_path_link_parts (fs : FS) (b : String) (parts : List String)
    (h : fs.deviceLink b = some (some parts)) :
    _block_device_usb_path fs b =
      match parts.findIdx? isUsbSeg with
      | none => none
      | some idx => parts[idx + 1]? := by
  unfold _block_device_usb_path
  rw [h]

/-- C4: the topology resolver returns a segment exactly when the device
link exists, resolves, has a first segment matching usb followed by
digits, and a further segment follows it, returning that next segment;
and a device on which the resolver returns absent never appears in the
enumerator output. -/
theorem usb_resolver_spec (fs : FS) (block_name : String) :
    (∀ seg, _block_device_usb_path fs block_name = some seg ↔
      ∃ parts i, fs.deviceLink block_name = some (some parts) ∧
        parts.findIdx? isUsbSeg = some i ∧ parts[i + 1]? = some seg) ∧
    (_block_device_usb_path fs block_name = none →
      ∀ sp, (block_name, sp) ∉ get_usb_storage_speeds fs) := by
  constructor
  · intro seg
    constructor
    · intro hg
      cases hdl : fs.deviceLink block_name with
      | none =>
        rw [usb_path_link_missing fs block_name hdl] at hg
        cases hg
      | some o =>
        cases o with
        | none =>
          rw [usb_path_link_raises fs block_name hdl] at hg
          cases hg
        | some parts =>
          rw [usb_path_link_parts fs block_name parts hdl] at hg
          cases hfi : parts.findIdx? isUsbSeg with
          | none =>
            rw [hfi] at hg
            cases hg
          | some idx =>
            rw [hfi] at hg
            exact ⟨parts, idx, rfl, hfi, hg⟩
    · rintro ⟨parts, i, hp, hf, hseg⟩
      rw [usb_path_link_parts fs block_name parts hp, hf]
      exact hseg
  · intro hnone sp hmem
    by_cases hex : fs.sysBlockExists = true
    · simp only [get_usb_storage_speeds, hex, if_true] at hmem
      rcases (mem_enumLoop fs block_name sp fs.sysBlockList).mp hmem with ⟨_, _, p, hp, _⟩
      rw [hnone] at hp
      cases hp
    · simp only [get_usb_storage_speeds, hex, if_false] at hmem
      cases hmem

/-- C4 witness: the resolver theorem applied to the loop0 device of the
main witness state, which has no USB topology. -/
theorem usb_resolver_spec_witness :
    _block_device_usb_path fsMain "loop0" = none ∧
    ("loop0", (none : Option Int)) ∉ get_usb_storage_speeds fsMain :=
  ⟨by decide, (usb_resolver_spec fsMain "loop0").2 (by decide) none⟩

/-- C9: with an unchanged kernel state between two runs, the snapshot
construction over the enumerator output yields equal snapshots; more
generally two states whose enumerations agree and whose per-device mount
points agree up to order produce equal snapshots, because each device's
mount points are sorted before comparison while device order is kept. -/
theorem snapshot_idempotent (fs fs2 : FS)
    (hdev : get_usb_storage_speeds fs = get_usb_storage_speeds fs2)
    (hmp : ∀ b, (get_mount_points fs b).Perm (get_mount_points fs2 b)) :
    _menu_state fs (get_usb_storage_speeds fs) =
      _menu_state fs2 (get_usb_storage_speeds fs2) := by
  rw [← hdev]
  unfold _menu_state
  apply List.map_congr_left
  intro d _
  rw [sortStrings_eq_of_perm (hmp d.1)]

/-- C9 witness: the snapshot theorem applied twice to the same concrete
state. -/
theorem snapshot_idempotent_witness :
    _menu_state fsMain (get_usb_storage_speeds fsMain) =
      _menu_state fsMain (get_usb_storage_speeds fsMain) :=
  snapshot_idempotent fsMain fsMain rfl (fun _ => List.Perm.refl _)

/-- Case form of the raising-aware device-number collector. -/
theorem devNumbersX_cases (fx : FSX) (b : String) :
    _get_block_dev_numbersX fx b =
      (if fx.base.blockIsDir b = true ∧ fx.blockSubRaises b = true then Except.error ()
       else Except.ok (_get_block_dev_numbers fx.base b)) := by
  unfold _get_block_dev_numbersX _get_block_dev_numbers
  by_cases hd : fx.base.blockIsDir b = true
  · by_cases hr : fx.blockSubRaises b = true
    · simp [hd, hr]
    · simp [hd, hr]
  · simp [hd]

/-- Case form of the raising-aware correlator: it errors exactly when the
collector does, and otherwise returns the pure correlator result. -/
theorem get_mount_pointsX_cases (fx : FSX) (b : String) :
    get_mount_pointsX fx b =
      (if fx.base.blockIsDir b = true ∧ fx.blockSubRaises b = true then Except.error ()
       else Except.ok (get_mount_points fx.base b)) := by
  unfold get_mount_pointsX
  rw [devNumbersX_cases]
  by_cases h : fx.base.blockIsDir b = true ∧ fx.blockSubRaises b = true
  · rw [if_pos h, if_pos h]
  · rw [if_neg h, if_neg h]
    rfl

/-- Case form of the raising-aware enumerator. -/
theorem get_usb_storage_speedsX_cases (fx : FSX) :
    get_usb_storage_speedsX fx =
      (if fx.base.sysBlockExists = true ∧ fx.sysBlockRaises = true then Except.error ()
       else Except.ok (get_usb_storage_speeds fx.base)) := by
  unfold get_usb_storage_speedsX get_usb_storage_speeds
  by_cases he : fx.base.sysBlockExists = true
  · by_cases hr : fx.sysBlockRaises = true
    · simp [he, hr]
    · simp [he, hr]
  · simp [he]

/-- C7 counterexample: a state whose block registry and sda directory
exist but cannot be listed makes the enumerator and the mount correlator
propagate the error to the caller instead of returning an empty result. -/
theorem engine_unreadable_registry_cex :
    fxRaise.base.sysBlockExists = true ∧
    get_usb_storage_speedsX fxRaise = Except.error () ∧
    get_usb_storage_speedsX fxRaise ≠ Except.ok [] ∧
    fxRaise.base.blockIsDir "sda" = true ∧
    get_mount_pointsX fxRaise "sda" = Except.error () := by
  refine ⟨rfl, rfl, ?_, rfl, rfl⟩
  intro h
  cases h

/-- C7 (amended): the engine raises only on a failing directory listing:
the enumerator errors exactly when an existing block registry cannot be
listed, and the correlator errors exactly when the device's existing
block directory cannot be listed (through the collector, called before
the correlator's try block); in every other state the raising-aware
functions return the pure results, so a missing registry or a missing or
unreadable mount table yields an empty result, a missing or unreadable
speed file yields an absent speed, and a device whose speed read failed
is still enumerated with its absent field alongside the other devices. -/
theorem engine_degrades_unless_listing_raises (fx : FSX) (block_name usb_path : String) :
    (get_usb_storage_speedsX fx = Except.error () ↔
      fx.base.sysBlockExists = true ∧ fx.sysBlockRaises = true) ∧
    (get_mount_pointsX fx block_name = Except.error () ↔
      fx.base.blockIsDir block_name = true ∧ fx.blockSubRaises block_name = true) ∧
    (fx.sysBlockRaises = false →
      get_usb_storage_speedsX fx = Except.ok (get_usb_storage_speeds fx.base)) ∧
    (fx.blockSubRaises block_name = false →
      get_mount_pointsX fx block_name = Except.ok (get_mount_points fx.base block_name)) ∧
    (fx.base.sysBlockExists = false → get_usb_storage_speedsX fx = Except.ok []) ∧
    (fx.base.mountinfo = FileRead.missing → fx.blockSubRaises block_name = false →
      get_mount_pointsX fx block_name = Except.ok []) ∧
    (fx.base.mountinfo = FileRead.unreadable → fx.blockSubRaises block_name = false →
      get_mount_pointsX fx block_name = Except.ok []) ∧
    (fx.base.usbSpeed usb_path = FileRead.missing →
      _read_speed_mbps fx.base usb_path = none) ∧
    (fx.base.usbSpeed usb_path = FileRead.unreadable →
      _read_speed_mbps fx.base usb_path = none) ∧
    (fx.base.sysBlockExists = true → fx.sysBlockRaises = false →
      block_name ∈ fx.base.sysBlockList → fx.base.blockIsDir block_name = true →
      _block_device_usb_path fx.base block_name = some usb_path →
      (block_name, _read_speed_mbps fx.base usb_path) ∈ get_usb_storage_speeds fx.base) := by
  refine ⟨?_, ?_, ?_, ?_, ?_, ?_, ?_, ?_, ?_, ?_⟩
  · rw [get_usb_storage_speedsX_cases]
    by_cases h : fx.base.sysBlockExists = true ∧ fx.sysBlockRaises = true
    · simp [h]
    · simp [h]
  · rw [get_mount_pointsX_cases]
    by_cases h : fx.base.blockIsDir block_name = true ∧ fx.blockSubRaises block_name = true
    · simp [h]
    · simp [h]
  · intro hr
    rw [get_usb_storage_speedsX_cases]
    rw [if_neg (by rw [hr]; rintro ⟨_, h2⟩; cases h2)]
  · intro hr
    rw [get_mount_pointsX_cases]
    rw [if_neg (by rw [hr]; rintro ⟨_, h2⟩; cases h2)]
  · intro he
    rw [get_usb_storage_speedsX_cases]
    rw [if_neg (by rw [he]; rintro ⟨h1, _⟩; cases h1)]
    rw [show get_usb_storage_speeds fx.base = [] by simp [get_usb_storage_speeds, he]]
  · intro hm hr
    rw [get_mount_pointsX_cases]
    rw [if_neg (by rw [hr]; rintro ⟨_, h2⟩; cases h2)]
    rw [show get_mount_points fx.base block_name = [] by simp [get_mount_points, hm]]
  · intro hm hr
    rw [get_mount_pointsX_cases]
    rw [if_neg (by rw [hr]; rintro ⟨_, h2⟩; cases h2)]
    rw [show get_mount_points fx.base block_name = [] by simp [get_mount_points, hm]]
  · intro h
    simp [_read_speed_mbps, h]
  · intro h
    simp [_read_speed_mbps, h]
  · intro hex hr hmem hdir hres
    simp only [get_usb_storage_speeds, hex, if_true]
    exact (mem_enumLoop fx.base block_name _ fx.base.sysBlockList).mpr
      ⟨hmem, hdir, usb_path, hres, rfl⟩

/-- C7 witness: the amended theorem applied to the concrete no-failure,
all-absent, unreadable-files and main states. -/
theorem engine_degrades_unless_listing_raises_witness :
    get_usb_storage_speedsX fxMain = Except.ok (get_usb_storage_speeds fsMain) ∧
    get_mount_pointsX fxMain "sda" = Except.ok (get_mount_points fsMain "sda") ∧
    get_usb_storage_speedsX fxEmpty = Except.ok [] ∧
    get_mount_pointsX fxEmpty "sda" = Except.ok [] ∧
    get_mount_pointsX fxUnread "sda" = Except.ok [] ∧
    _read_speed_mbps fsEmpty "2-3" = none ∧
    _read_speed_mbps fsUnread "2-3" = none ∧
    ("sda", _read_speed_mbps fsMain "2-3") ∈ get_usb_storage_speeds fsMain :=
  ⟨(engine_degrades_unless_listing_raises fxMain "sda" "2-3").2.2.1 rfl,
    (engine_degrades_unless_listing_raises fxMain "sda" "2-3").2.2.2.1 rfl,
    (engine_degrades_unless_listing_raises fxEmpty "sda" "2-3").2.2.2.2.1 rfl,
    (engine_degrades_unless_listing_raises fxEmpty "sda" "2-3").2.2.2.2.2.1 rfl rfl,
    (engine_degrades_unless_listing_raises fxUnread "sda" "2-3").2.2.2.2.2.2.1 rfl rfl,
    (engine_degrades_unless_listing_raises fxEmpty "sda" "2-3").2.2.2.2.2.2.2.1 rfl,
    (engine_degrades_unless_listing_raises fxUnread "sda" "2-3").2.2.2.2.2.2.2.2.1 rfl,
    (engine_degrades_unless_listing_raises fxMain "sda" "2-3").2.2.2.2.2.2.2.2.2 rfl rfl
      (by decide) (by decide) (by decide)⟩
